import Mathlib

/-!
Verification of the `vectorless-grep` reasoning engine (Rust, `src-tauri`)
against its natural-language specification.

The Rust sources are shallowly embedded: pure functions become Lean
functions over `List Char` / `String`, `ℚ` stands for `f64` (every constant
in play is a small decimal fraction and all arithmetic on them is exact),
`HashMap` becomes an association list with shadowing insert, fallible code
returns `Option`/`Except`.  Each definition mirrors one Rust item and is
named after it.
-/

set_option autoImplicit false

namespace Vectorless

/-! ### ASCII string primitives (models of the Rust `str` methods used) -/

/-- Model of `char::to_ascii_lowercase`. -/
def toLowerAscii (c : Char) : Char :=
  if 65 ≤ c.toNat ∧ c.toNat ≤ 90 then Char.ofNat (c.toNat + 32) else c

/-- Model of `str::to_ascii_lowercase`. -/
def lowerAscii (s : List Char) : List Char :=
  s.map toLowerAscii

/-- `needle` occurs at the head of `hay`. -/
def isPrefixCh : List Char → List Char → Bool
  | [], _ => true
  | _ :: _, [] => false
  | a :: as, b :: bs => a == b && isPrefixCh as bs

/-- Model of `str::contains` with a string pattern (substring search). -/
def containsCh (hay needle : List Char) : Bool :=
  match hay with
  | [] => isPrefixCh needle []
  | _ :: rest => isPrefixCh needle hay || containsCh rest needle

/-- Whitespace as trimmed by `str::trim` (restricted to the ASCII subset;
the repository only ever trims ASCII payloads). -/
def isWsCh (c : Char) : Bool :=
  c == ' ' || c == '\t' || c == '\n' || c == '\r'

/-- Model of `str::trim`. -/
def trimCh (s : List Char) : List Char :=
  (s.dropWhile isWsCh).reverse.dropWhile isWsCh |>.reverse

/-- Model of `char::is_ascii_alphanumeric`. -/
def isAsciiAlnum (c : Char) : Bool :=
  (48 ≤ c.toNat && c.toNat ≤ 57) ||
  (65 ≤ c.toNat && c.toNat ≤ 90) ||
  (97 ≤ c.toNat && c.toNat ≤ 122)

/-- Substring test lifted to `String`. -/
def strContains (hay needle : String) : Bool :=
  containsCh hay.data needle.data

/-! ### `reasoner/query_scope.rs` -/

/-- `RELATION_HINTS` from `query_scope.rs`. -/
def RELATION_HINTS : List String :=
  ["related", "relationship", "relationships", "compare", "comparison",
   "differences", "similarities", "across", "between", "connect",
   "overlap", "fit together", "how they"]

/-- `MULTI_DOC_HINTS` from `query_scope.rs`. -/
def MULTI_DOC_HINTS : List String :=
  ["files", "documents", "docs", "papers", "slides", "presentations",
   "sources", "these files", "these documents", "all files", "all documents"]

/-- `SINGLE_DOC_HINTS` from `query_scope.rs`. -/
def SINGLE_DOC_HINTS : List String :=
  ["this file", "this document", "this slide", "slide ", "page ", "section "]

/-- The normalized query: lowercased and wrapped in single spaces,
modelling `format!(" {} ", query.to_ascii_lowercase())`. -/
def normalizeQuery (query : String) : List Char :=
  ' ' :: lowerAscii query.data ++ [' ']

/-- `has_relation_hint` in `requires_project_scope`. -/
def hasRelationHint (query : String) : Bool :=
  RELATION_HINTS.any fun hint => containsCh (normalizeQuery query) hint.data

/-- `has_multi_doc_hint` in `requires_project_scope`. -/
def hasMultiDocHint (query : String) : Bool :=
  MULTI_DOC_HINTS.any fun hint => containsCh (normalizeQuery query) hint.data

/-- `has_single_doc_hint` in `requires_project_scope`. -/
def hasSingleDocHint (query : String) : Bool :=
  SINGLE_DOC_HINTS.any fun hint => containsCh (normalizeQuery query) hint.data

/-- `has_plural_pronoun` in `requires_project_scope`. -/
def hasPluralPronoun (query : String) : Bool :=
  containsCh (normalizeQuery query) " they ".data ||
    containsCh (normalizeQuery query) " them ".data

/-- `normalized.contains("across documents") || normalized.contains("across files")`. -/
def hasAcrossLiteral (query : String) : Bool :=
  containsCh (normalizeQuery query) "across documents".data ||
    containsCh (normalizeQuery query) "across files".data

/-- Model of `requires_project_scope` (`query_scope.rs`), with the same
early-return structure as the Rust function. -/
def requires_project_scope (query : String) : Bool :=
  if hasMultiDocHint query && (hasRelationHint query || hasPluralPronoun query) then true
  else if hasAcrossLiteral query then true
  else if hasRelationHint query && hasPluralPronoun query then true
  else hasRelationHint query && hasMultiDocHint query && !hasSingleDocHint query

/-- The classifier decision as the specification words it: a flat
disjunction of the four conditions `M ∧ (R ∨ P)`, literal `across
documents`/`across files`, `R ∧ P`, `R ∧ M ∧ ¬S` over the normalized
query. -/
def requiresProjectScopeSpec (query : String) : Bool :=
  (hasMultiDocHint query && (hasRelationHint query || hasPluralPronoun query)) ||
    hasAcrossLiteral query ||
    (hasRelationHint query && hasPluralPronoun query) ||
    (hasRelationHint query && hasMultiDocHint query && !hasSingleDocHint query)

/-- C4: `requires_project_scope` returns true exactly when one of the four
spec conditions holds over the lowercased, space-wrapped query. -/
theorem c4_requires_project_scope_matches_spec (query : String) :
    requires_project_scope query = requiresProjectScopeSpec query := by
  unfold requires_project_scope requiresProjectScopeSpec
  cases hasRelationHint query <;>
    cases hasMultiDocHint query <;>
    cases hasSingleDocHint query <;>
    cases hasPluralPronoun query <;>
    cases hasAcrossLiteral query <;>
    rfl

example : requires_project_scope "Explain what these files are about and how they are related" = true := by decide

example : requires_project_scope "What does slide 8 say about the model?" = false := by decide

/-! ### `reasoner/planner.rs` -/

/-- `StepType` (`planner.rs`): the six closed step kinds. -/
inductive StepType where
  | scanRoot
  | selectSections
  | drillDown
  | extractEvidence
  | synthesize
  | selfCheck
deriving DecidableEq, Repr

/-- `PlannerDecision` (`planner.rs`). -/
inductive PlannerDecision where
  | Continue
  | Backtrack
  | Stop
deriving DecidableEq, Repr

/-- `PlannerConfig` (`planner.rs`); `confidence_threshold` is an `f64`
modelled as `ℚ`. -/
structure PlannerConfig where
  max_steps : Nat
  max_backtracks : Nat
  confidence_threshold : ℚ

/-- `PlannerConfig::default()`. -/
def plannerDefault : PlannerConfig :=
  { max_steps := 6, max_backtracks := 2, confidence_threshold := 7/10 }

/-- `PlannerInput` (`planner.rs`). -/
structure PlannerInput where
  query : String
  last_confidence : Option ℚ
  explored_sections : List String
  has_evidence : Bool
  step_count : Nat
  backtrack_count : Nat

/-- `PlannedStep` (`planner.rs`). -/
structure PlannedStep where
  step_type : StepType
  objective : String
deriving DecidableEq, Repr

/-- `PlannedSequence` (`planner.rs`). -/
structure PlannedSequence where
  decision : PlannerDecision
  steps : List PlannedStep
deriving DecidableEq, Repr

/-- `GeminiPlannerStep` (`providers/gemini.rs`). -/
structure GeminiPlannerStep where
  step_type : String
  objective : String
  reasoning : String
  decision : String

/-- The five-step revision block emitted by the backtracking branch of
`Planner::next_steps`. -/
def backtrackSteps (query : String) : List PlannedStep :=
  [{ step_type := .selectSections,
     objective := "Re-select sections for query '" ++ query ++ "' skipping explored branches" },
   { step_type := .drillDown, objective := "Drill into candidate subsections" },
   { step_type := .extractEvidence, objective := "Extract stronger evidence nodes" },
   { step_type := .synthesize, objective := "Synthesize revised answer" },
   { step_type := .selfCheck, objective := "Estimate grounded confidence" }]

/-- The six-step default pipeline emitted by the final branch of
`Planner::next_steps` (the scan-root objective gets a suffix when sections
have been explored already). -/
def defaultPipelineSteps (explored_nonempty : Bool) : List PlannedStep :=
  [{ step_type := .scanRoot,
     objective :=
       if explored_nonempty then
         "Scan root table-of-contents for broad candidates; avoid previously explored sections"
       else
         "Scan root table-of-contents for broad candidates" },
   { step_type := .selectSections, objective := "Select sections relevant to user query" },
   { step_type := .drillDown, objective := "Navigate into subsections and atomic nodes" },
   { step_type := .extractEvidence, objective := "Extract claim/table/equation evidence" },
   { step_type := .synthesize, objective := "Synthesize grounded answer" },
   { step_type := .selfCheck,
     objective := "Measure confidence and decide if re-traversal is needed" }]

/-- Model of `Planner::next_steps` (`planner.rs`, the deterministic
fallback planner). -/
def next_steps (cfg : PlannerConfig) (input : PlannerInput) : PlannedSequence :=
  if cfg.max_steps ≤ input.step_count then
    { decision := .Stop, steps := [] }
  else
    match input.last_confidence with
    | some confidence =>
      if confidence < cfg.confidence_threshold ∧
          input.backtrack_count < cfg.max_backtracks then
        { decision := .Backtrack, steps := backtrackSteps input.query }
      else next_steps_tail input
    | none => next_steps_tail input
where
  /-- The branches of `next_steps` below the backtracking check. -/
  next_steps_tail (input : PlannerInput) : PlannedSequence :=
    if input.has_evidence then
      { decision := .Continue,
        steps := [{ step_type := .synthesize, objective := "Build answer from evidence" },
                  { step_type := .selfCheck, objective := "Check grounding and confidence" }] }
    else
      { decision := .Continue,
        steps := defaultPipelineSteps (!input.explored_sections.isEmpty) }

/-- Model of `parse_decision` (`planner.rs`). -/
def parse_decision (raw : String) : PlannerDecision :=
  let v := String.mk (lowerAscii (trimCh raw.data))
  if v == "stop" || v == "finish" || v == "done" then .Stop
  else if v == "backtrack" || v == "revise" || v == "retry" then .Backtrack
  else .Continue

/-- Model of `parse_step_kind` (`planner.rs`). -/
def parse_step_kind (raw : String) : Option StepType :=
  let v := String.mk (lowerAscii (trimCh raw.data))
  if v == "search" || v == "scan_root" then some .scanRoot
  else if v == "select_sections" then some .selectSections
  else if v == "inspect" || v == "drill_down" then some .drillDown
  else if v == "extract_evidence" then some .extractEvidence
  else if v == "synthesize" then some .synthesize
  else if v == "self_check" || v == "validate" then some .selfCheck
  else if v == "finish" then some .selfCheck
  else none

/-- Model of `Planner::next_steps_from_model` (`planner.rs`).  The
`SelectSections | ExtractEvidence` arm of the Rust `match` re-parses the
step kind; since that re-parse returns the value already matched, it is
modelled by the matched kind. -/
def next_steps_from_model (cfg : PlannerConfig) (input : PlannerInput)
    (model_step : GeminiPlannerStep) : Option PlannedSequence :=
  if cfg.max_steps ≤ input.step_count then
    some { decision := .Stop, steps := [] }
  else
    match parse_decision model_step.decision with
    | .Stop =>
      if !input.has_evidence then
        some { decision := .Continue,
               steps := [{ step_type := .scanRoot,
                           objective := "Need evidence before finishing" },
                         { step_type := .selectSections,
                           objective := "Find relevant candidate sections" }] }
      else
        some { decision := .Stop, steps := [] }
    | .Backtrack =>
      some { decision := .Backtrack,
             steps := [{ step_type := .selectSections, objective := model_step.objective },
                       { step_type := .drillDown, objective := "Re-check alternate branches" },
                       { step_type := .extractEvidence,
                         objective := "Collect stronger supporting evidence" },
                       { step_type := .synthesize,
                         objective := "Regenerate answer from revised evidence" },
                       { step_type := .selfCheck,
                         objective := "Validate revised answer quality" }] }
    | .Continue =>
      match parse_step_kind model_step.step_type with
      | none => none
      | some .scanRoot =>
        some { decision := .Continue,
               steps := [{ step_type := .scanRoot, objective := model_step.objective },
                         { step_type := .selectSections,
                           objective := "Select high-signal sections" }] }
      | some .drillDown =>
        some { decision := .Continue,
               steps := [{ step_type := .drillDown, objective := model_step.objective },
                         { step_type := .extractEvidence,
                           objective := "Extract concrete supporting claims" }] }
      | some .synthesize =>
        some { decision := .Continue,
               steps := [{ step_type := .synthesize, objective := model_step.objective }] }
      | some .selfCheck =>
        some { decision := .Continue,
               steps := [{ step_type := .selfCheck, objective := model_step.objective }] }
      | some .selectSections =>
        some { decision := .Continue,
               steps := [{ step_type := .selectSections, objective := model_step.objective }] }
      | some .extractEvidence =>
        some { decision := .Continue,
               steps := [{ step_type := .extractEvidence, objective := model_step.objective }] }

/-- The planner-step validation performed by
`GeminiClient::generate_plan_step` (`gemini.rs`): a parsed step whose
trimmed `step_type` or `objective` is empty is rejected with
`PROVIDER_INVALID_RESPONSE` before it ever reaches the planner. -/
def planStepFieldsValid (s : GeminiPlannerStep) : Bool :=
  !(trimCh s.step_type.data).isEmpty && !(trimCh s.objective.data).isEmpty

/-- Provider-call failures (the `AppError` variants `generate_plan_step`
can produce), as an opaque-payload sum. -/
inductive ProviderError where
  | auth
  | rateLimited
  | timeout
  | invalidResponse (msg : String)
  | network (msg : String)

/-- The executor's plan selection (`executor.rs` lines 96–106): a model
step, when the provider call succeeds, goes through
`next_steps_from_model`, with the deterministic `next_steps` as fallback;
any provider error falls back to `next_steps` directly. -/
def choosePlan (cfg : PlannerConfig) (input : PlannerInput)
    (modelResult : Except ProviderError GeminiPlannerStep) : PlannedSequence :=
  match modelResult with
  | .ok step => (next_steps_from_model cfg input step).getD (next_steps cfg input)
  | .error _ => next_steps cfg input

/-- "last_confidence is present and below the confidence threshold", as a
Boolean over the planner input. -/
def specLowConfidence (cfg : PlannerConfig) (input : PlannerInput) : Bool :=
  input.last_confidence.elim false fun c => decide (c < cfg.confidence_threshold)

/-- The deterministic fallback table exactly as the specification words
it: four rows in priority order, returning decision and step-kind list. -/
def fallbackTableSpec (cfg : PlannerConfig) (input : PlannerInput) :
    PlannerDecision × List StepType :=
  if cfg.max_steps ≤ input.step_count then (.Stop, [])
  else if specLowConfidence cfg input ∧
      input.backtrack_count < cfg.max_backtracks then
    (.Backtrack, [.selectSections, .drillDown, .extractEvidence, .synthesize, .selfCheck])
  else if input.has_evidence then (.Continue, [.synthesize, .selfCheck])
  else (.Continue, [.scanRoot, .selectSections, .drillDown, .extractEvidence,
                    .synthesize, .selfCheck])

/-- C2: the deterministic planner implements exactly the four-row fallback
table in priority order (projected to decision and step kinds), and the
executor falls back to it whenever the LLM planner call fails. -/
theorem c2_deterministic_planner_table (cfg : PlannerConfig) (input : PlannerInput) :
    ((next_steps cfg input).decision,
      (next_steps cfg input).steps.map PlannedStep.step_type) =
        fallbackTableSpec cfg input ∧
    (∀ e : ProviderError, choosePlan cfg input (.error e) = next_steps cfg input) := by
  refine ⟨?_, fun _ => rfl⟩
  unfold next_steps fallbackTableSpec
  rcases h : input.last_confidence with _ | c <;>
    · simp only [h, specLowConfidence, Option.elim, next_steps.next_steps_tail]
      split_ifs <;>
        simp_all [backtrackSteps, defaultPipelineSteps] <;>
        (rename_i hcond; exact absurd hcond.1 (by linarith))

/-- The expansion map for a recognized model step kind, as the
specification words it. -/
def modelExpansion : StepType → List StepType
  | .scanRoot => [.scanRoot, .selectSections]
  | .drillDown => [.drillDown, .extractEvidence]
  | .synthesize => [.synthesize]
  | .selfCheck => [.selfCheck]
  | .selectSections => [.selectSections]
  | .extractEvidence => [.extractEvidence]

/-- The model-guided adaptation as the (amended) claim words it,
projected to decision and step-kind list: the step-count bound first;
then a `stop` decision without evidence overridden to a two-step
retrieval restart; a `backtrack` decision always getting the five-step
revision block; otherwise the recognized kind expanded, and an
unrecognized kind discarded (`none`). -/
def modelTableSpec (cfg : PlannerConfig) (input : PlannerInput)
    (model_step : GeminiPlannerStep) : Option (PlannerDecision × List StepType) :=
  if cfg.max_steps ≤ input.step_count then some (.Stop, [])
  else
    match parse_decision model_step.decision with
    | .Stop =>
      if input.has_evidence then some (.Stop, [])
      else some (.Continue, [.scanRoot, .selectSections])
    | .Backtrack =>
      some (.Backtrack,
        [.selectSections, .drillDown, .extractEvidence, .synthesize, .selfCheck])
    | .Continue =>
      (parse_step_kind model_step.step_type).map fun k => (.Continue, modelExpansion k)

/-- A planner input with one step taken and evidence in hand
(`step_count = 1 < max_steps`). -/
def inputMidRun : PlannerInput :=
  { query := "How are these files related?", last_confidence := some (41/100),
    explored_sections := [], has_evidence := true, step_count := 1,
    backtrack_count := 0 }

/-- The same planner input at the step bound (`step_count = 6 = max_steps`). -/
def inputAtBound : PlannerInput :=
  { query := "How are these files related?", last_confidence := some (41/100),
    explored_sections := [], has_evidence := true, step_count := 6,
    backtrack_count := 0 }

/-- C3 counterexample: (1) a model step with an empty `objective`
(a required field) is *not* discarded by `next_steps_from_model` — it is
accepted and expanded, contradicting "if … required fields are empty it
discards the step and falls back"; (2) at `step_count = max_steps` a
`backtrack` decision yields `(Stop, [])`, not the five-step revision
block, contradicting "a Backtrack decision always yields the 5-step
revision block". -/
theorem c3_counterexample :
    next_steps_from_model plannerDefault inputMidRun
        { step_type := "synthesize", objective := "", reasoning := "",
          decision := "continue" } =
      some { decision := .Continue,
             steps := [{ step_type := .synthesize, objective := "" }] } ∧
    next_steps_from_model plannerDefault inputAtBound
        { step_type := "synthesize", objective := "Revise the answer",
          reasoning := "", decision := "backtrack" } =
      some { decision := .Stop, steps := [] } := by
  constructor <;> rfl

/-- C3 (amended): below the step bound, `next_steps_from_model` discards
unrecognized step kinds (deterministic fallback is then used by the
executor), overrides `stop` without evidence, always expands a
`backtrack` decision to the five-step revision block, and expands a
recognized kind per the mapping; at or above the step bound it returns
`(Stop, [])` regardless of the model step.  Empty required fields are
rejected earlier, by `generate_plan_step`'s validation, not here. -/
theorem c3_model_adaptation_amended :
    (∀ (cfg : PlannerConfig) (input : PlannerInput) (model_step : GeminiPlannerStep),
      (next_steps_from_model cfg input model_step).map
          (fun p => (p.decision, p.steps.map PlannedStep.step_type)) =
        modelTableSpec cfg input model_step) ∧
    (∀ s : GeminiPlannerStep, (trimCh s.objective.data).isEmpty = true →
      planStepFieldsValid s = false) := by
  constructor
  · intro cfg input model_step
    unfold next_steps_from_model modelTableSpec
    by_cases hbound : cfg.max_steps ≤ input.step_count
    · simp only [if_pos hbound]
      rfl
    · simp only [if_neg hbound]
      cases parse_decision model_step.decision
      · rcases parse_step_kind model_step.step_type with _ | k
        · rfl
        · cases k <;> rfl
      · rfl
      · cases input.has_evidence <;> rfl
  · intro s hs
    unfold planStepFieldsValid
    simp [hs]

/-- Witness for C3's amended theorem: both conjuncts applied at concrete
inputs (a recognized `search` step mid-run, and a step whose objective
trims to empty). -/
theorem c3_model_adaptation_witness :
    ((next_steps_from_model plannerDefault inputMidRun
        { step_type := "search", objective := "Find candidate sections",
          reasoning := "", decision := "continue" }).map
        (fun p => (p.decision, p.steps.map PlannedStep.step_type)) =
      modelTableSpec plannerDefault inputMidRun
        { step_type := "search", objective := "Find candidate sections",
          reasoning := "", decision := "continue" }) ∧
    planStepFieldsValid
        { step_type := "synthesize", objective := "  ", reasoning := "",
          decision := "continue" } = false :=
  ⟨c3_model_adaptation_amended.1 plannerDefault inputMidRun
      { step_type := "search", objective := "Find candidate sections",
        reasoning := "", decision := "continue" },
   c3_model_adaptation_amended.2
      { step_type := "synthesize", objective := "  ", reasoning := "",
        decision := "continue" } (by decide)⟩

/-! ### `reasoner/evaluator.rs` -/

/-- `QualityMetrics` (`core/types.rs`), the `f64` scores as `ℚ`. -/
structure QualityMetrics where
  overall : ℚ
  query_alignment : ℚ
  citation_coverage : ℚ
  cross_document_coverage : ℚ
  grounded : Bool
deriving DecidableEq, Repr

/-- Model of Rust `str::split` on `!is_ascii_alphanumeric`: the maximal
chunks between separator characters, including empty chunks (`n`
separators produce `n + 1` chunks). -/
def splitNonAlnum : List Char → List (List Char)
  | [] => [[]]
  | c :: rest =>
    if isAsciiAlnum c then
      match splitNonAlnum rest with
      | [] => [[c]]
      | w :: ws => (c :: w) :: ws
    else [] :: splitNonAlnum rest

/-- Model of `is_stopword` (`evaluator.rs`). -/
def is_stopword (w : List Char) : Bool :=
  ["the", "and", "for", "are", "how", "what", "with", "about", "that",
   "this", "these", "from", "into", "their", "they"].any fun s => w == s.data

/-- The surviving query terms of `query_alignment_score`: chunks split on
non-alphanumeric runs, trimmed and lowercased, keeping length > 2 and
non-stopwords.  (Chunk length in bytes equals length in characters: every
chunk is ASCII alphanumeric.) -/
def queryTerms (query : String) : List (List Char) :=
  (((splitNonAlnum query.data).map fun w => lowerAscii (trimCh w)).filter
      fun w => 2 < w.length).filter fun w => !is_stopword w

/-- Model of `query_alignment_score` (`evaluator.rs`). -/
def query_alignment_score (query answer : String) : ℚ :=
  let terms := queryTerms query
  if terms.isEmpty then 0
  else
    min ((terms.countP fun t => containsCh (lowerAscii answer.data) t : ℚ) /
      (terms.length : ℚ)) 1

/-- Model of `evaluate_answer` (`evaluator.rs`).  The `HashMap` citation →
document map is an association list; the `HashSet` of cited documents is
`dedup`. -/
def evaluate_answer (query answer_markdown : String) (citations : List String)
    (evidence_node_ids : List String)
    (citation_document_map : List (String × String))
    (relation_query : Bool) : QualityMetrics :=
  let grounded := !(trimCh answer_markdown.data).isEmpty && !citations.isEmpty
  let query_alignment := query_alignment_score query answer_markdown
  let valid_citations := citations.countP fun c => evidence_node_ids.contains c
  let citation_coverage : ℚ :=
    if evidence_node_ids.isEmpty then 0
    else min ((valid_citations : ℚ) / (evidence_node_ids.length : ℚ)) 1
  let cross_document_coverage : ℚ :=
    if relation_query then
      let docs := (citations.filterMap fun c => citation_document_map.lookup c).dedup
      if 2 ≤ docs.length then 1 else if docs.length = 1 then 1/2 else 0
    else 1
  let grounding_score : ℚ := if grounded then 1 else 0
  let overall := query_alignment * (4/10) + citation_coverage * (25/100) +
    cross_document_coverage * (2/10) + grounding_score * (15/100)
  { overall := min overall 1,
    query_alignment := query_alignment,
    citation_coverage := citation_coverage,
    cross_document_coverage := cross_document_coverage,
    grounded := grounded }

/-- C5: the five quality metrics of `evaluate_answer` are exactly the
formulas of the claim: groundedness from non-empty trimmed answer and
citations, `citation_coverage = min(1, valid/|evidence|)` (0 on empty
evidence) counting citations by membership in the evidence set,
cross-document coverage 1 / ½ / 0 from the number of distinct cited
documents for relation queries and 1 otherwise, query alignment as the
matched token fraction, and the clamped weighted overall. -/
theorem c5_evaluate_answer_formulas (query answer : String)
    (citations evidence : List String) (dmap : List (String × String))
    (relation : Bool) :
    ((evaluate_answer query answer citations evidence dmap relation).grounded = true ↔
      trimCh answer.data ≠ [] ∧ citations ≠ []) ∧
    (evaluate_answer query answer citations evidence dmap relation).citation_coverage =
      (if evidence = [] then 0
       else min 1 ((citations.countP fun c => decide (c ∈ evidence) : ℚ) /
         (evidence.length : ℚ))) ∧
    (evaluate_answer query answer citations evidence dmap relation).cross_document_coverage =
      (if relation then
        (if 2 ≤ ((citations.filterMap fun c => dmap.lookup c).toFinset.card) then (1 : ℚ)
         else if ((citations.filterMap fun c => dmap.lookup c).toFinset.card) = 1 then 1/2
         else 0)
       else 1) ∧
    (evaluate_answer query answer citations evidence dmap relation).query_alignment =
      (if queryTerms query = [] then 0
       else min 1 ((((queryTerms query).countP
           fun t => containsCh (lowerAscii answer.data) t) : ℚ) /
         ((queryTerms query).length : ℚ))) ∧
    (evaluate_answer query answer citations evidence dmap relation).overall =
      min 1 ((4/10) *
          (evaluate_answer query answer citations evidence dmap relation).query_alignment +
        (25/100) *
          (evaluate_answer query answer citations evidence dmap relation).citation_coverage +
        (2/10) *
          (evaluate_answer query answer citations evidence dmap relation).cross_document_coverage +
        (15/100) *
          (if (evaluate_answer query answer citations evidence dmap relation).grounded
            then (1 : ℚ) else 0)) := by
  refine ⟨?_, ?_, ?_, ?_, ?_⟩
  · simp [evaluate_answer, Bool.and_eq_true, List.isEmpty_iff]
  · simp only [evaluate_answer, List.isEmpty_iff]
    have hc : (citations.countP fun c => evidence.contains c) =
        citations.countP fun c => decide (c ∈ evidence) := by
      congr 1
      funext c
      simp [List.elem_eq_mem]
    rw [hc, min_comm]
  · simp only [evaluate_answer, List.card_toFinset]
  · simp only [evaluate_answer, query_alignment_score, List.isEmpty_iff]
    split_ifs <;> simp [min_comm]
  · simp only [evaluate_answer]
    rw [min_comm]
    ring_nf

/-! ### `reasoner/executor.rs` — loop-exit quality gate and completion -/

/-- Model of `is_answer_grounded` (`executor.rs`). -/
def is_answer_grounded (answer_markdown : String) (citations : List String) : Bool :=
  if (trimCh answer_markdown.data).isEmpty then false
  else if citations.isEmpty then false
  else !containsCh (lowerAscii answer_markdown.data)
    "could not produce a grounded answer".data

/-- Model of `dedupe_citations` (`executor.rs`): keep the first occurrence
of each citation, preserving order (the `HashSet` is an explicit
seen-list). -/
def dedupeGo : List String → List String → List String
  | [], _ => []
  | c :: rest, seen =>
    if seen.contains c then dedupeGo rest seen
    else c :: dedupeGo rest (c :: seen)

/-- `dedupe_citations` entry point. -/
def dedupe_citations (citations : List String) : List String :=
  dedupeGo citations []

/-- `MIN_QUALITY_SCORE` (`executor.rs`). -/
def MIN_QUALITY_SCORE : ℚ := 6/10

/-- `MIN_RELATION_QUALITY_SCORE` (`executor.rs`). -/
def MIN_RELATION_QUALITY_SCORE : ℚ := 7/10

/-- `relation_query` at loop exit (`executor.rs` line 309):
`focus_document_id.is_none() && requires_project_scope(query)`. -/
def gateRelation (focus_document_id : Option String) (query : String) : Bool :=
  focus_document_id.isNone && requires_project_scope query

/-- `min_quality_score` selection (`executor.rs` lines 319–323). -/
def gateThreshold (relation_query : Bool) : ℚ :=
  if relation_query then MIN_RELATION_QUALITY_SCORE else MIN_QUALITY_SCORE

/-- The quality metrics computed at loop exit (`executor.rs` lines
310–317): `evaluate_answer` over the deduped citations. -/
def gateQuality (focus_document_id : Option String) (query answer_markdown : String)
    (evidence_ids : List String) (evidence_doc_map : List (String × String)) :
    QualityMetrics :=
  evaluate_answer query answer_markdown (dedupe_citations evidence_ids) evidence_ids
    evidence_doc_map (gateRelation focus_document_id query)

/-- `grounded` at loop exit (`executor.rs` line 318):
`quality.grounded && is_answer_grounded(answer, citations)`. -/
def gateGrounded (focus_document_id : Option String) (query answer_markdown : String)
    (evidence_ids : List String) (evidence_doc_map : List (String × String)) : Bool :=
  (gateQuality focus_document_id query answer_markdown evidence_ids evidence_doc_map).grounded
    && is_answer_grounded answer_markdown (dedupe_citations evidence_ids)

/-- The two `format!` arguments of the `QUALITY_GATE_FAILED` message
(`executor.rs` lines 327–331): the achieved percentage
`quality.overall * 100` and the required percentage
`min_quality_score * 100`.  (The `{:.0}%` float formatting itself is kept
as the raw arguments.) -/
structure QualityGateError where
  achieved_pct : ℚ
  required_pct : ℚ
deriving DecidableEq, Repr

/-- The arguments the executor hands to `reasoning::complete_run`
(`executor.rs` lines 340–353): answer row plus final confidence, grounded
flag and quality payload. -/
structure CompleteRunArgs where
  answer_markdown : String
  citations : List String
  final_confidence : ℚ
  grounded : Bool
  quality : QualityMetrics
deriving DecidableEq, Repr

/-- Model of the loop-exit tail of `ReasoningExecutor::run` (`executor.rs`
lines 306–353): dedupe citations, evaluate quality, apply the quality
gate, and either return the `QUALITY_GATE_FAILED` error (no
`complete_run`) or the grounded/ungrounded final confidence together with
the `complete_run` arguments. -/
def finalize_run (focus_document_id : Option String) (query answer_markdown : String)
    (evidence_ids : List String) (evidence_doc_map : List (String × String))
    (confidence : Option ℚ) : Except QualityGateError CompleteRunArgs :=
  let final_confidence := confidence.getD (3/10)
  let quality := gateQuality focus_document_id query answer_markdown evidence_ids
    evidence_doc_map
  let grounded := gateGrounded focus_document_id query answer_markdown evidence_ids
    evidence_doc_map
  let min_quality_score := gateThreshold (gateRelation focus_document_id query)
  if !(grounded && decide (min_quality_score ≤ quality.overall)) then
    Except.error { achieved_pct := quality.overall * 100,
                   required_pct := min_quality_score * 100 }
  else
    Except.ok { answer_markdown := answer_markdown,
                citations := dedupe_citations evidence_ids,
                final_confidence :=
                  if grounded then max final_confidence quality.overall
                  else min (min final_confidence (45/100)) (max quality.overall (25/100)),
                grounded := grounded,
                quality := quality }

/-- Run status written by the command layer (`commands/reasoning.rs` lines
59–85): on `Ok` the run was completed by `complete_run` inside the
executor; on any `Err` the task calls `fail_run`, which sets
`status = 'failed'`. -/
inductive RunStatus where
  | running
  | completed
  | failed
deriving DecidableEq, Repr

/-- Status dispatch of `run_reasoning_query`'s spawned task. -/
def run_status_after (outcome : Except QualityGateError CompleteRunArgs) : RunStatus :=
  match outcome with
  | .ok _ => .completed
  | .error _ => .failed

/-- Effective focus chosen by `run_reasoning_query`
(`commands/reasoning.rs` lines 30–34). -/
def effective_focus_document_id (query : String) (focus_document_id : Option String) :
    Option String :=
  if requires_project_scope query then none else focus_document_id

/-- C1: whenever at loop exit the answer is not grounded or the overall
quality is below the threshold (0.70 for relation queries, 0.60
otherwise), the executor returns the `QUALITY_GATE_FAILED` error carrying
the achieved and required percentages, `complete_run` is never reached
(no `Ok`/answer row), and the run is subsequently marked failed. -/
theorem c1_quality_gate_fails_run (focus : Option String) (query answer : String)
    (evidence : List String) (dmap : List (String × String)) (conf : Option ℚ)
    (h : gateGrounded focus query answer evidence dmap = false ∨
      (gateQuality focus query answer evidence dmap).overall <
        gateThreshold (gateRelation focus query)) :
    finalize_run focus query answer evidence dmap conf =
      Except.error
        { achieved_pct := (gateQuality focus query answer evidence dmap).overall * 100,
          required_pct := gateThreshold (gateRelation focus query) * 100 } ∧
    (∀ args : CompleteRunArgs,
      finalize_run focus query answer evidence dmap conf ≠ Except.ok args) ∧
    run_status_after (finalize_run focus query answer evidence dmap conf) =
      RunStatus.failed := by
  have hcond : (gateGrounded focus query answer evidence dmap &&
      decide (gateThreshold (gateRelation focus query) ≤
        (gateQuality focus query answer evidence dmap).overall)) = false := by
    rcases h with h | h
    · simp [h]
    · simp [decide_eq_false (not_le.mpr h)]
  refine ⟨?_, ?_, ?_⟩ <;> simp [finalize_run, hcond, run_status_after]

/-- Witness for C1 at the spec's scenario 2: query "Explain this file"
with an empty synthesized answer (focused run, no evidence). -/
theorem c1_quality_gate_fails_run_witness :
    finalize_run (some "doc-1") "Explain this file" "" [] [] (some (1/2)) =
      Except.error
        { achieved_pct :=
            (gateQuality (some "doc-1") "Explain this file" "" [] []).overall * 100,
          required_pct :=
            gateThreshold (gateRelation (some "doc-1") "Explain this file") * 100 } ∧
    (∀ args : CompleteRunArgs,
      finalize_run (some "doc-1") "Explain this file" "" [] [] (some (1/2)) ≠
        Except.ok args) ∧
    run_status_after
        (finalize_run (some "doc-1") "Explain this file" "" [] [] (some (1/2))) =
      RunStatus.failed :=
  c1_quality_gate_fails_run (some "doc-1") "Explain this file" "" [] [] (some (1/2))
    (by decide)

/-- C6: when `requires_project_scope(query)` holds, the start-query
command forces `focus = None`, which makes the executor classify the run
as a relation query and apply the 0.70 quality threshold. -/
theorem c6_relation_query_forces_project_scope (query : String)
    (focus : Option String) (h : requires_project_scope query = true) :
    effective_focus_document_id query focus = none ∧
    gateRelation (effective_focus_document_id query focus) query = true ∧
    gateThreshold (gateRelation (effective_focus_document_id query focus) query) =
      7/10 := by
  refine ⟨?_, ?_, ?_⟩ <;>
    simp [effective_focus_document_id, gateRelation, gateThreshold,
      MIN_RELATION_QUALITY_SCORE, h]

/-- Witness for C6 at the spec's scenario 3 query, with a caller-supplied
focus document that gets ignored. -/
theorem c6_relation_query_forces_project_scope_witness :
    effective_focus_document_id
        "Explain what these files are about and how they are related" (some "doc-a") =
      none ∧
    gateRelation
        (effective_focus_document_id
          "Explain what these files are about and how they are related" (some "doc-a"))
        "Explain what these files are about and how they are related" = true ∧
    gateThreshold
        (gateRelation
          (effective_focus_document_id
            "Explain what these files are about and how they are related"
            (some "doc-a"))
          "Explain what these files are about and how they are related") = 7/10 :=
  c6_relation_query_forces_project_scope
    "Explain what these files are about and how they are related" (some "doc-a")
    (by decide)

/-- C10: every run that reaches `complete_run` is grounded, and its final
confidence comes from the grounded branch
`max(last_confidence, quality.overall)` — the ungrounded branch is
unreachable on the completion path. -/
theorem c10_completed_runs_are_grounded (focus : Option String)
    (query answer : String) (evidence : List String)
    (dmap : List (String × String)) (conf : Option ℚ) (args : CompleteRunArgs)
    (h : finalize_run focus query answer evidence dmap conf = Except.ok args) :
    args.grounded = true ∧
    args.final_confidence =
      max (conf.getD (3/10)) (gateQuality focus query answer evidence dmap).overall := by
  by_cases hg : (gateGrounded focus query answer evidence dmap &&
      decide (gateThreshold (gateRelation focus query) ≤
        (gateQuality focus query answer evidence dmap).overall)) = true
  · have hgr : gateGrounded focus query answer evidence dmap = true := by
      cases hb : gateGrounded focus query answer evidence dmap
      · rw [hb, Bool.false_and] at hg
        exact absurd hg (by simp)
      · rfl
    have hd : decide (gateThreshold (gateRelation focus query) ≤
        (gateQuality focus query answer evidence dmap).overall) = true := by
      cases hb : decide (gateThreshold (gateRelation focus query) ≤
          (gateQuality focus query answer evidence dmap).overall)
      · rw [hb, Bool.and_false] at hg
        exact absurd hg (by simp)
      · rfl
    simp only [finalize_run, hgr, hd, Bool.and_self, Bool.not_true,
      Bool.false_eq_true, if_false, if_true, Except.ok.injEq] at h
    rw [← h]
    exact ⟨rfl, rfl⟩
  · have hg' : (gateGrounded focus query answer evidence dmap &&
        decide (gateThreshold (gateRelation focus query) ≤
          (gateQuality focus query answer evidence dmap).overall)) = false :=
      Bool.eq_false_iff.mpr hg
    simp [finalize_run, hg'] at h

/-- Witness for C10 at a concrete run that passes the quality gate
(focused query, perfectly aligned grounded answer, synthesis confidence
0.82). -/
theorem c10_completed_runs_are_grounded_witness :
    finalize_run (some "d") "latency numbers" "The latency numbers are 50ms p99."
        ["n1"] [("n1", "d")] (some (82/100)) =
      Except.ok
        { answer_markdown := "The latency numbers are 50ms p99.",
          citations := ["n1"], final_confidence := 1, grounded := true,
          quality := { overall := 1, query_alignment := 1, citation_coverage := 1,
                       cross_document_coverage := 1, grounded := true } } ∧
    (true = true ∧
      (1 : ℚ) = max ((some (82/100) : Option ℚ).getD (3/10))
        (gateQuality (some "d") "latency numbers" "The latency numbers are 50ms p99."
          ["n1"] [("n1", "d")]).overall) :=
  ⟨by with_unfolding_all rfl,
   c10_completed_runs_are_grounded (some "d") "latency numbers"
     "The latency numbers are 50ms p99." ["n1"] [("n1", "d")] (some (82/100))
     { answer_markdown := "The latency numbers are 50ms p99.",
       citations := ["n1"], final_confidence := 1, grounded := true,
       quality := { overall := 1, query_alignment := 1, citation_coverage := 1,
                    cross_document_coverage := 1, grounded := true } }
     (by with_unfolding_all rfl)⟩

/-- C7 fails on the code: the model-reported synthesis confidence is
never clamped, so a run that passes the quality gate with
`last_confidence = 2.0` (a value the provider's JSON can carry — `gemini.rs`
takes the `confidence` field as-is, defaulting to 0.5 only when absent)
completes with `final_confidence = max(2.0, 1.0) = 2.0 ∉ [0,1]`.  This
theorem evaluates the executor tail at that failing input. -/
theorem c7_final_confidence_exceeds_one :
    (finalize_run (some "d") "latency figures" "The latency figures are 50ms p99."
        ["n2"] [("n2", "d")] (some 2)).toOption.map CompleteRunArgs.final_confidence =
      some 2 ∧
    ¬((2 : ℚ) ≤ 1) := by
  exact ⟨by with_unfolding_all rfl, by norm_num⟩

/-! ### `executor.rs` — `pick_candidates` (evidence builder) -/

/-- `NodeType` (`core/types.rs`). -/
inductive NodeType where
  | document
  | section
  | subsection
  | paragraph
  | claim
  | table
  | figure
  | equation
  | caption
  | reference
  | unknown
deriving DecidableEq, Repr

/-- `DocNodeSummary` (`core/types.rs`). -/
structure DocNodeSummary where
  id : String
  document_id : String
  parent_id : Option String
  node_type : NodeType
  title : String
  text : String
  ordinal_path : String
  page_start : Option Int
  page_end : Option Int
deriving DecidableEq, Repr

/-- `limit.saturating_mul(4).max(12)` — the expanded limit passed to
`search_project_nodes` by `pick_candidates` (on `ℕ` the saturation is the
plain product). -/
def expanded_limit (limit : Nat) : Nat :=
  max (limit * 4) 12

/-- `per_document.get(&doc).copied().unwrap_or(0)` — the `HashMap` is an
association list with shadowing insert, so `lookup` finds the newest
binding. -/
def lookupCount (perDocument : List (String × Nat)) (doc : String) : Nat :=
  (perDocument.lookup doc).getD 0

/-- The `for node in ranked` fairness loop of `pick_candidates`
(`executor.rs` lines 419–429): stop at `limit` selected; skip a node when
focus is absent and its document already reached `maxPerDoc`; otherwise
bump the per-document count and select it. -/
def fairLoop (focusPresent : Bool) (limit maxPerDoc : Nat) :
    List DocNodeSummary → List DocNodeSummary → List (String × Nat) →
      List DocNodeSummary
  | [], selected, _ => selected
  | node :: rest, selected, perDocument =>
    if limit ≤ selected.length then selected
    else if focusPresent = false ∧ maxPerDoc ≤ lookupCount perDocument node.document_id then
      fairLoop focusPresent limit maxPerDoc rest selected perDocument
    else
      fairLoop focusPresent limit maxPerDoc rest (selected ++ [node])
        ((node.document_id, lookupCount perDocument node.document_id + 1) :: perDocument)

/-- Model of `pick_candidates` after the two async fetches are abstracted
as inputs: `ranked0` is what `search_project_nodes` returned and
`fallback` is the depth-2 `scope_nodes` subtree (focus document's subtree
when focus is present, else the project subtree). -/
def pickFromRanked (ranked0 fallback : List DocNodeSummary) (focusPresent : Bool)
    (limit : Nat) : List DocNodeSummary :=
  let ranked := if ranked0.isEmpty then fallback else ranked0
  if ranked.isEmpty then []
  else
    let maxPerDoc := if focusPresent then max limit 1 else max (limit / 2) 2
    let selected := fairLoop focusPresent limit maxPerDoc ranked [] []
    if selected.isEmpty then fallback else selected

/-- `pick_candidates` (`executor.rs` lines 387–436), with the node search
abstracted as a function of the requested limit. -/
def pick_candidates (search : Nat → List DocNodeSummary)
    (fallback : List DocNodeSummary) (focusPresent : Bool) (limit : Nat) :
    List DocNodeSummary :=
  pickFromRanked (search (expanded_limit limit)) fallback focusPresent limit

/-- The per-document cap filter as the claim words it: walk the list,
keeping a node only while its document has fewer than `maxPerDoc` kept
nodes (no early stop — the claim's "first `limit` survivors" is a
`take limit` of this). -/
def capFilter (maxPerDoc : Nat) :
    List DocNodeSummary → List (String × Nat) → List DocNodeSummary
  | [], _ => []
  | node :: rest, counts =>
    if maxPerDoc ≤ lookupCount counts node.document_id then
      capFilter maxPerDoc rest counts
    else
      node :: capFilter maxPerDoc rest
        ((node.document_id, lookupCount counts node.document_id + 1) :: counts)

/-- With focus absent, the break-at-`limit` fairness loop computes the
`take limit` of the unlimited cap filter. -/
theorem fairLoop_absent_eq_capFilter (limit maxPerDoc : Nat) :
    ∀ (nodes selected : List DocNodeSummary) (counts : List (String × Nat)),
      selected.length ≤ limit →
      fairLoop false limit maxPerDoc nodes selected counts =
        selected ++ (capFilter maxPerDoc nodes counts).take (limit - selected.length) := by
  intro nodes
  induction nodes with
  | nil => intro selected counts _; simp [fairLoop, capFilter]
  | cons node rest ih =>
    intro selected counts hle
    by_cases hfull : limit ≤ selected.length
    · have heq : limit - selected.length = 0 := Nat.sub_eq_zero_of_le hfull
      simp [fairLoop, hfull, heq]
    · have hlt : selected.length < limit := Nat.lt_of_not_le hfull
      by_cases hskip : maxPerDoc ≤ lookupCount counts node.document_id
      · rw [show fairLoop false limit maxPerDoc (node :: rest) selected counts =
            fairLoop false limit maxPerDoc rest selected counts by
          simp [fairLoop, hfull, hskip]]
        rw [ih selected counts hle]
        simp [capFilter, hskip]
      · rw [show fairLoop false limit maxPerDoc (node :: rest) selected counts =
            fairLoop false limit maxPerDoc rest (selected ++ [node])
              ((node.document_id, lookupCount counts node.document_id + 1) :: counts) by
          simp [fairLoop, hfull, hskip]]
        rw [ih (selected ++ [node]) _ (by simp; omega)]
        have harith : limit - selected.length = (limit - (selected.length + 1)) + 1 := by
          omega
        simp only [capFilter, if_neg hskip, harith, List.take_succ_cons,
          List.length_append, List.length_cons, List.length_nil, List.append_assoc,
          List.cons_append, List.nil_append]

/-- With focus present, the fairness loop never skips: it is a plain
`take limit`. -/
theorem fairLoop_present_eq_take (limit maxPerDoc : Nat) :
    ∀ (nodes selected : List DocNodeSummary) (counts : List (String × Nat)),
      selected.length ≤ limit →
      fairLoop true limit maxPerDoc nodes selected counts =
        selected ++ nodes.take (limit - selected.length) := by
  intro nodes
  induction nodes with
  | nil => intro selected counts _; simp [fairLoop]
  | cons node rest ih =>
    intro selected counts hle
    by_cases hfull : limit ≤ selected.length
    · have heq : limit - selected.length = 0 := Nat.sub_eq_zero_of_le hfull
      simp [fairLoop, hfull, heq]
    · rw [show fairLoop true limit maxPerDoc (node :: rest) selected counts =
          fairLoop true limit maxPerDoc rest (selected ++ [node])
            ((node.document_id, lookupCount counts node.document_id + 1) :: counts) by
        simp [fairLoop, hfull]]
      rw [ih (selected ++ [node]) _ (by simp; omega)]
      have harith : limit - selected.length = (limit - (selected.length + 1)) + 1 := by
        omega
      simp only [harith, List.take_succ_cons, List.length_append, List.length_cons,
        List.length_nil, List.append_assoc, List.cons_append, List.nil_append]

/-- The cap filter keeps at most `maxPerDoc - (already counted)` nodes of
any one document. -/
theorem capFilter_count_le (maxPerDoc : Nat) (d : String) :
    ∀ (nodes : List DocNodeSummary) (counts : List (String × Nat)),
      lookupCount counts d ≤ maxPerDoc →
      (capFilter maxPerDoc nodes counts).countP (fun n => n.document_id == d) +
        lookupCount counts d ≤ maxPerDoc := by
  intro nodes
  induction nodes with
  | nil => intro counts h; simpa [capFilter] using h
  | cons node rest ih =>
    intro counts h
    by_cases hskip : maxPerDoc ≤ lookupCount counts node.document_id
    · simpa [capFilter, hskip] using ih counts h
    · by_cases hd : node.document_id = d
      · subst hd
        have hnew : lookupCount
            ((node.document_id, lookupCount counts node.document_id + 1) :: counts)
              node.document_id = lookupCount counts node.document_id + 1 := by
          simp [lookupCount, List.lookup]
        have hrec := ih ((node.document_id, lookupCount counts node.document_id + 1) :: counts)
          (by rw [hnew]; omega)
        rw [hnew] at hrec
        have hcnt : (capFilter maxPerDoc (node :: rest) counts).countP
            (fun n => n.document_id == node.document_id) =
              (capFilter maxPerDoc rest
                ((node.document_id, lookupCount counts node.document_id + 1) :: counts)).countP
                (fun n => n.document_id == node.document_id) + 1 := by
          simp [capFilter, hskip, List.countP_cons]
        rw [hcnt]
        omega
      · have hd2 : (d == node.document_id) = false :=
          beq_eq_false_iff_ne.mpr fun e => hd e.symm
        have hnew : lookupCount
            ((node.document_id, lookupCount counts node.document_id + 1) :: counts) d =
              lookupCount counts d := by
          simp [lookupCount, List.lookup, hd2]
        have hrec := ih ((node.document_id, lookupCount counts node.document_id + 1) :: counts)
          (by rw [hnew]; exact h)
        rw [hnew] at hrec
        have hd3 : (node.document_id == d) = false := beq_eq_false_iff_ne.mpr hd
        have hcnt : (capFilter maxPerDoc (node :: rest) counts).countP
            (fun n => n.document_id == d) =
              (capFilter maxPerDoc rest
                ((node.document_id, lookupCount counts node.document_id + 1) :: counts)).countP
                (fun n => n.document_id == d) := by
          simp [capFilter, hskip, List.countP_cons, hd3]
        rw [hcnt]
        omega

/-- C8 (amended): `pick_candidates` asks the search for
`max(limit × 4, 12)` nodes; with focus absent the result is the first
`limit` survivors of the `max(limit / 2, 2)` per-document cap filter (and
any single document contributes at most that many nodes); with focus
present no cap is applied and the first `limit` ranked nodes are taken.
An empty ranked list is replaced by the depth-2 fallback subtree, which
then goes through the same filter; the fallback is returned unmodified
only when the filtered selection is empty. -/
theorem c8_pick_candidates_amended :
    (∀ (search : Nat → List DocNodeSummary) (fallback : List DocNodeSummary)
        (focusPresent : Bool) (limit : Nat),
      pick_candidates search fallback focusPresent limit =
        pickFromRanked (search (max (limit * 4) 12)) fallback focusPresent limit) ∧
    (∀ (ranked0 fallback : List DocNodeSummary) (limit : Nat),
      pickFromRanked ranked0 fallback false limit =
        (let pool := if ranked0.isEmpty then fallback else ranked0
         if pool.isEmpty then []
         else
           let sel := (capFilter (max (limit / 2) 2) pool []).take limit
           if sel.isEmpty then fallback else sel)) ∧
    (∀ (ranked0 fallback : List DocNodeSummary) (limit : Nat),
      pickFromRanked ranked0 fallback true limit =
        (let pool := if ranked0.isEmpty then fallback else ranked0
         if pool.isEmpty then []
         else if (pool.take limit).isEmpty then fallback else pool.take limit)) ∧
    (∀ (pool : List DocNodeSummary) (limit : Nat) (d : String),
      ((capFilter (max (limit / 2) 2) pool []).take limit).countP
          (fun n => n.document_id == d) ≤ max (limit / 2) 2) := by
  refine ⟨fun _ _ _ _ => rfl, ?_, ?_, ?_⟩
  · intro ranked0 fallback limit
    simp only [pickFromRanked, Bool.false_eq_true, if_false]
    rw [fairLoop_absent_eq_capFilter limit (max (limit / 2) 2) _ [] []
      (by simp)]
    simp
  · intro ranked0 fallback limit
    simp only [pickFromRanked, if_true]
    rw [fairLoop_present_eq_take limit (max limit 1) _ [] [] (by simp)]
    simp
  · intro pool limit d
    have hcap := capFilter_count_le (max (limit / 2) 2) d pool []
      (by simp [lookupCount])
    have htake : ((capFilter (max (limit / 2) 2) pool []).take limit).countP
        (fun n => n.document_id == d) ≤
          (capFilter (max (limit / 2) 2) pool []).countP
            (fun n => n.document_id == d) :=
      (List.take_sublist _ _).countP_le _
    simp [lookupCount] at hcap
    omega

/-- A bare paragraph node, for concrete `pick_candidates` inputs. -/
def plainNode (i d : String) : DocNodeSummary :=
  { id := i, document_id := d, parent_id := none, node_type := .paragraph,
    title := "", text := "", ordinal_path := "1", page_start := none,
    page_end := none }

/-- C8 counterexample: with an empty ranked search result, focus absent
and `limit = 4`, a four-node single-document fallback subtree is *not*
returned — the per-document cap `max(4 / 2, 2) = 2` is applied to the
fallback too, so only its first two nodes come back, contradicting "when
the ranked list … is empty, the shallow depth-2 fallback subtree … is
returned". -/
theorem c8_counterexample :
    pick_candidates (fun _ => []) [plainNode "a1" "doc", plainNode "a2" "doc",
        plainNode "a3" "doc", plainNode "a4" "doc"] false 4 =
      [plainNode "a1" "doc", plainNode "a2" "doc"] ∧
    pick_candidates (fun _ => []) [plainNode "a1" "doc", plainNode "a2" "doc",
        plainNode "a3" "doc", plainNode "a4" "doc"] false 4 ≠
      [plainNode "a1" "doc", plainNode "a2" "doc", plainNode "a3" "doc",
        plainNode "a4" "doc"] := by
  constructor
  · rfl
  · decide

/-! ### `executor.rs` — `extract_evidence` snippet formatting (UTF-8) -/

/-- UTF-8 byte length of a string (Rust `str::len`), via the per-character
encoded size `Char.utf8Size` (identical to Rust `char::len_utf8`). -/
def utf8ByteLen (s : List Char) : Nat :=
  (s.map Char.utf8Size).sum

/-- Model of Rust `String::truncate(new_len)` restricted to `new_len ≤
len`: walk whole characters while their encoded size fits into the
remaining byte budget; `none` models the `assert!(self.is_char_boundary
(new_len))` panic when the budget runs out inside a character. -/
def truncatePrefix : List Char → Nat → Option (List Char)
  | _, 0 => some []
  | [], _ => some []
  | c :: rest, n =>
    if c.utf8Size ≤ n then (truncatePrefix rest (n - c.utf8Size)).map (c :: ·)
    else none

/-- The snippet text preparation of the `ExtractEvidence` arm
(`executor.rs` lines 190–193): `if text.len() > 500 { text.truncate(500) }`. -/
def truncate_to_500 (text : List Char) : Option (List Char) :=
  if 500 < utf8ByteLen text then truncatePrefix text 500 else some text

/-- Model of `node_type_name` (`executor.rs`). -/
def node_type_name : NodeType → String
  | .document => "document"
  | .section => "section"
  | .subsection => "subsection"
  | .paragraph => "paragraph"
  | .claim => "claim"
  | .table => "table"
  | .figure => "figure"
  | .equation => "equation"
  | .caption => "caption"
  | .reference => "reference"
  | .unknown => "unknown"

/-- The snippet `format!` of the `ExtractEvidence` arm (`executor.rs`
lines 194–203), `none` when the truncation panics. -/
def snippet_for (node : DocNodeSummary) : Option String :=
  (truncate_to_500 node.text.data).map fun text =>
    "[citation:" ++ node.id ++ "] document=" ++ node.document_id ++
      " path=" ++ node.ordinal_path ++ " type=" ++ node_type_name node.node_type ++
      " title=" ++ node.title ++ " excerpt=" ++
      String.mk (text.map fun c => if c = '\n' then ' ' else c) ++ " "

/-- Truncating `k` one-byte characters followed by a two-byte character at
byte budget `k + 1` lands inside the final character: the model panic. -/
theorem truncatePrefix_replicate_panic :
    ∀ k : Nat, truncatePrefix (List.replicate k 'a' ++ ['é']) (k + 1) = none := by
  intro k
  induction k with
  | zero => rfl
  | succ k ih =>
    rw [List.replicate_succ, List.cons_append]
    show (if ('a').utf8Size ≤ k + 1 + 1 then
        (truncatePrefix (List.replicate k 'a' ++ ['é']) (k + 1 + 1 - ('a').utf8Size)).map
          ('a' :: ·)
      else none) = none
    rw [if_pos (by simp [Char.utf8Size])]
    have hsub : k + 1 + 1 - ('a').utf8Size = k + 1 := rfl
    rw [hsub, ih]
    rfl

/-- The byte length of that text is `k + 2`. -/
theorem utf8ByteLen_replicate_append (k : Nat) :
    utf8ByteLen (List.replicate k 'a' ++ ['é']) = k + 2 := by
  induction k with
  | zero => rfl
  | succ k ih =>
    rw [List.replicate_succ, List.cons_append]
    show ('a').utf8Size + utf8ByteLen (List.replicate k 'a' ++ ['é']) = k + 1 + 2
    rw [ih]
    have ha : ('a').utf8Size = 1 := rfl
    rw [ha]
    omega

/-- C9 fails on the code: the snippet formatting is *not* total.  For a
node whose text is 499 `'a'`s followed by `'é'` (byte length 501, so the
`> 500` branch runs), byte index 500 falls inside the final two-byte
character and Rust's `String::truncate(500)` panics — modelled by
`snippet_for` returning `none`. -/
theorem c9_snippet_truncation_panics :
    snippet_for
        { id := "n1", document_id := "d", parent_id := none,
          node_type := .paragraph, title := "T",
          text := String.mk (List.replicate 499 'a' ++ ['é']),
          ordinal_path := "1", page_start := none, page_end := none } = none ∧
    utf8ByteLen (List.replicate 499 'a' ++ ['é']) = 501 := by
  have hlen : utf8ByteLen (List.replicate 499 'a' ++ ['é']) = 501 :=
    utf8ByteLen_replicate_append 499
  have htrunc : truncatePrefix (List.replicate 499 'a' ++ ['é']) 500 = none :=
    truncatePrefix_replicate_panic 499
  have hnone : truncate_to_500
      (String.mk (List.replicate 499 'a' ++ ['é'])).data = none := by
    have hdata : (String.mk (List.replicate 499 'a' ++ ['é'])).data =
        List.replicate 499 'a' ++ ['é'] := rfl
    rw [hdata]
    unfold truncate_to_500
    rw [hlen, if_pos (by omega)]
    exact htrunc
  refine ⟨?_, hlen⟩
  simp only [snippet_for]
  rw [hnone]
  rfl

end Vectorless
